import Mathlib

/-
Verification of the Songs CRUD service (FastAPI + DynamoDB).

Shallow embedding of:
  - app/schemas.py : pydantic field constraints (SongBase / SongCreate / SongUpdate)
  - app/crud.py    : SongCRUD.{get_all_songs, create_song, get_song_by_id,
                     update_song, delete_song}
  - app/main.py    : HTTP handlers (status-code mapping, validation boundary)

The DynamoDB table is modelled as a list of items keyed by `id` (DynamoDB keys
are unique; theorems that need uniqueness take it as a hypothesis).  Each CRUD
operation returns, besides its result, the new store and the trace of
store-level operations it issued, so that "no write is performed" claims are
expressible.  The paginated `scan` loop is modelled over an explicit list of
pages with a numeric `LastEvaluatedKey` cursor.
-/

set_option linter.unusedVariables false

namespace SongsApi

/-- A persisted item of table TBL_SONG: attributes `id`, `name`, `path`
(strings) and `plays` (integer), as laid out by `create_song` in crud.py. -/
structure Item where
  id : String
  name : String
  path : String
  plays : Int
  deriving Repr, DecidableEq

/-- Wire schema `SongCreate` (schemas.py): `name`, `path`, `plays` — after
pydantic validation, so `plays` already carries its default 0 if it was
omitted from the request body. -/
structure SongCreate where
  name : String
  path : String
  plays : Int
  deriving Repr, DecidableEq

/-- Wire schema `SongUpdate` (schemas.py): all three fields optional. -/
structure SongUpdate where
  name : Option String
  path : Option String
  plays : Option Int
  deriving Repr, DecidableEq

/-- DynamoDB `get_item` by key: the first (in a well-keyed store, the only)
item whose `id` equals the key. -/
def getItem (store : List Item) (key : String) : Option Item :=
  store.find? (fun it => it.id == key)

/-- DynamoDB `put_item`: unconditional insert-or-replace by key.  Replaces the
item in place at its key when present, otherwise appends. -/
def putItem : List Item → Item → List Item
  | [], item => [item]
  | it :: rest, item =>
      if it.id == item.id then item :: rest else it :: putItem rest item

/-- DynamoDB `delete_item` by key: removes the (first) item with this id. -/
def eraseKey : List Item → String → List Item
  | [], _ => []
  | it :: rest, key => if it.id == key then rest else it :: eraseKey rest key

/-- Effect of the SET update expression built by `update_song`: each supplied
field overwrites the stored attribute, absent fields are untouched. -/
def applyChanges (it : Item) (u : SongUpdate) : Item :=
  { it with
    name := u.name.getD it.name
    path := u.path.getD it.path
    plays := u.plays.getD it.plays }

/-- Store-level operations a CRUD call may issue against the table. -/
inductive StoreOp where
  | scanOp : StoreOp
  | getOp : String → StoreOp
  | putOp : Item → StoreOp
  | updateOp : String → SongUpdate → StoreOp
  | deleteOp : String → StoreOp
  deriving Repr, DecidableEq

/-- Whether a store operation writes to the table. -/
def StoreOp.isWrite : StoreOp → Bool
  | putOp _ => true
  | updateOp _ _ => true
  | deleteOp _ => true
  | _ => false

/-- Result of a CRUD call: returned value, resulting store, and the trace of
store operations issued during the call, in order. -/
structure CrudResult (α : Type) where
  value : α
  store : List Item
  trace : List StoreOp

/-- crud.py `get_song_by_id`: `table.get_item(Key={id})`, returning the item
or `None`; absence is not an error. -/
def get_song_by_id (store : List Item) (song_id : String) :
    CrudResult (Option Item) :=
  ⟨getItem store song_id, store, [StoreOp.getOp song_id]⟩

/-- crud.py `create_song`: builds the full item from a generated id (uuid4 in
the source, passed here as the parameter `gen_id`) and the validated input,
then calls `put_item` on it.  Returns the created item. -/
def create_song (gen_id : String) (store : List Item) (song_data : SongCreate) :
    CrudResult Item :=
  let item : Item :=
    { id := gen_id, name := song_data.name, path := song_data.path
      plays := song_data.plays }
  ⟨item, putItem store item, [StoreOp.putOp item]⟩

/-- The `update_expression_parts` list built field by field in crud.py
`update_song`: one SET clause per supplied field. -/
def updateExpressionParts (u : SongUpdate) : List String :=
  (if u.name.isSome then ["#name = :name"] else []) ++
  (if u.path.isSome then ["#path = :path"] else []) ++
  (if u.plays.isSome then ["plays = :plays"] else [])

/-- crud.py `update_song`: fetches the song first and returns `None` when it
is absent (no `update_item` is issued); with an empty change set, returns the
existing item without writing; otherwise issues `update_item` with the built
SET expression and returns the resulting item (ReturnValues ALL_NEW). -/
def update_song (store : List Item) (song_id : String) (song_data : SongUpdate) :
    CrudResult (Option Item) :=
  let fetched := get_song_by_id store song_id
  match fetched.value with
  | none => ⟨none, store, fetched.trace⟩
  | some existing =>
      if (updateExpressionParts song_data).isEmpty then
        ⟨some existing, store, fetched.trace⟩
      else
        let updated := applyChanges existing song_data
        ⟨some updated, putItem store updated,
          fetched.trace ++ [StoreOp.updateOp song_id song_data]⟩

/-- crud.py `delete_song`: `delete_item` with ReturnValues ALL_OLD — returns
the item as stored just before deletion, or `None` when absent. -/
def delete_song (store : List Item) (song_id : String) :
    CrudResult (Option Item) :=
  ⟨getItem store song_id, eraseKey store song_id, [StoreOp.deleteOp song_id]⟩

/-- One page of a DynamoDB `scan` response: the `Items` of page `n`. -/
def scanItems (pages : List (List Item)) (n : Nat) : List Item :=
  pages.getD n []

/-- The `LastEvaluatedKey` cursor of page `n`: present exactly when another
page follows. -/
def lastEvaluatedKey (pages : List (List Item)) (n : Nat) : Option Nat :=
  if n + 1 < pages.length then some (n + 1) else none

/-- The `while LastEvaluatedKey in response` loop of crud.py `get_all_songs`:
keeps scanning from the cursor and extending `songs` until no cursor
remains. -/
def getAllLoop (pages : List (List Item)) (songs : List Item) (n : Nat) :
    List Item :=
  match h : lastEvaluatedKey pages n with
  | none => songs
  | some m => getAllLoop pages (songs ++ scanItems pages m) m
termination_by pages.length - n
decreasing_by
  simp only [lastEvaluatedKey] at h
  split at h
  · cases h; omega
  · cases h

/-- crud.py `get_all_songs`: first `scan`, then the pagination loop. -/
def get_all_songs (pages : List (List Item)) : List Item :=
  getAllLoop pages (scanItems pages 0) 0

/-- pydantic constraint on `name` (schemas.py): min_length 1, max_length
200. -/
def validName (name : String) : Bool :=
  1 ≤ name.length && name.length ≤ 200

/-- pydantic constraint on `plays` (schemas.py): ge 0. -/
def validPlays (plays : Int) : Bool :=
  0 ≤ plays

/-- Raw POST /songs body before pydantic validation: `plays` may be omitted
(defaulting to 0), and the body may carry an extra `id` field, which is not
part of the `SongCreate` schema and is ignored by pydantic. -/
structure RawCreateRequest where
  name : String
  path : String
  plays : Option Int
  extraId : Option String
  deriving Repr, DecidableEq

/-- pydantic validation of a raw create body against `SongCreate`
(schemas.py): applies the default `plays = 0`, checks the field constraints,
and drops any field not in the schema (in particular `extraId`). -/
def parseSongCreate (r : RawCreateRequest) : Option SongCreate :=
  let plays := r.plays.getD 0
  if validName r.name && validPlays plays then
    some { name := r.name, path := r.path, plays := plays }
  else none

/-- pydantic validation of a `SongUpdate` body (schemas.py): each supplied
field must satisfy its constraint; absent fields are unconstrained. -/
def validSongUpdate (u : SongUpdate) : Bool :=
  (match u.name with | none => true | some n => validName n) &&
  (match u.plays with | none => true | some p => validPlays p)

/-- Outcome of an HTTP handler (main.py): status code, response body (the
Song, when one is returned), resulting store, and the store-operation
trace. -/
structure HttpResult where
  status : Nat
  body : Option Item
  store : List Item
  trace : List StoreOp

/-- main.py POST /songs handler: FastAPI rejects the body with 422 before the
handler body runs when pydantic validation fails (no storage call); otherwise
`create_song` runs and the created song is returned with 201. -/
def createSongHandler (gen_id : String) (store : List Item)
    (raw : RawCreateRequest) : HttpResult :=
  match parseSongCreate raw with
  | none => ⟨422, none, store, []⟩
  | some song =>
      let r := create_song gen_id store song
      ⟨201, some r.value, r.store, r.trace⟩

/-- main.py PUT handler for a single song id: a `None` from
`update_song` becomes HTTP 404, otherwise 200 with the updated song. -/
def updateSongHandler (store : List Item) (song_id : String)
    (song : SongUpdate) : HttpResult :=
  let r := update_song store song_id song
  match r.value with
  | none => ⟨404, none, r.store, r.trace⟩
  | some it => ⟨200, some it, r.store, r.trace⟩

/-- Data-model invariant on a single persisted song: non-empty id, non-empty
name, non-negative plays. -/
def itemOK (it : Item) : Prop :=
  it.id ≠ "" ∧ it.name ≠ "" ∧ 0 ≤ it.plays

/-- Store invariant: every persisted song is well-formed and ids are unique
across the store. -/
def storeWF (store : List Item) : Prop :=
  (∀ it ∈ store, itemOK it) ∧ store.Pairwise (fun a b => a.id ≠ b.id)

/-! Helper lemmas about the keyed store. -/

theorem getItem_putItem_self (store : List Item) (item : Item) :
    getItem (putItem store item) item.id = some item := by
  induction store with
  | nil => simp [getItem, putItem]
  | cons it rest ih =>
      by_cases h : (it.id == item.id) = true
      · simp [putItem, h, getItem]
      · simp only [putItem, h, if_false, Bool.false_eq_true]
        simp only [getItem, List.find?] at ih ⊢
        have h2 : (it.id == item.id) = false := by
          simpa using h
        rw [h2]
        exact ih

theorem getItem_id_eq {store : List Item} {key : String} {it : Item}
    (h : getItem store key = some it) : it.id = key ∧ it ∈ store := by
  have h1 := List.find?_some h
  have h2 := List.mem_of_find?_eq_some h
  exact ⟨by simpa using h1, h2⟩

theorem getItem_of_mem {store : List Item} {it : Item}
    (hp : store.Pairwise (fun a b => a.id ≠ b.id)) (hm : it ∈ store) :
    getItem store it.id = some it := by
  induction store with
  | nil => cases hm
  | cons a rest ih =>
      rcases List.pairwise_cons.1 hp with ⟨ha, hrest⟩
      rcases List.mem_cons.1 hm with h | h
      · subst h
        simp [getItem]
      · have hne : (a.id == it.id) = false := by
          have := ha it h
          simpa using this
        simp only [getItem, List.find?, hne]
        exact ih hrest h

theorem getItem_eraseKey_self {store : List Item} {key : String}
    (hp : store.Pairwise (fun a b => a.id ≠ b.id)) :
    getItem (eraseKey store key) key = none := by
  induction store with
  | nil => simp [getItem, eraseKey]
  | cons a rest ih =>
      rcases List.pairwise_cons.1 hp with ⟨ha, hrest⟩
      by_cases h : (a.id == key) = true
      · simp only [eraseKey, h, if_true]
        have heq : a.id = key := by simpa using h
        apply List.find?_eq_none.2
        intro b hb
        have : a.id ≠ b.id := ha b hb
        simp only [beq_iff_eq]
        rw [← heq]
        exact fun hc => this hc.symm
      · have h2 : (a.id == key) = false := by simpa using h
        simp only [eraseKey, h2, Bool.false_eq_true, if_false]
        simp only [getItem, List.find?, h2]
        exact ih hrest

theorem mem_putItem {store : List Item} {item x : Item}
    (h : x ∈ putItem store item) : x = item ∨ x ∈ store := by
  induction store with
  | nil => simpa [putItem] using h
  | cons a rest ih =>
      by_cases hc : (a.id == item.id) = true
      · simp only [putItem, hc, if_true] at h
        rcases List.mem_cons.1 h with h | h
        · exact Or.inl h
        · exact Or.inr (List.mem_cons.2 (Or.inr h))
      · simp only [putItem, hc, Bool.false_eq_true, if_false] at h
        rcases List.mem_cons.1 h with h | h
        · exact Or.inr (List.mem_cons.2 (Or.inl h))
        · rcases ih h with h | h
          · exact Or.inl h
          · exact Or.inr (List.mem_cons.2 (Or.inr h))

theorem pairwise_putItem {store : List Item} (item : Item)
    (hp : store.Pairwise (fun a b => a.id ≠ b.id)) :
    (putItem store item).Pairwise (fun a b => a.id ≠ b.id) := by
  induction store with
  | nil => simp [putItem]
  | cons a rest ih =>
      rcases List.pairwise_cons.1 hp with ⟨ha, hrest⟩
      by_cases hc : (a.id == item.id) = true
      · have heq : a.id = item.id := by simpa using hc
        simp only [putItem, hc, if_true]
        refine List.pairwise_cons.2 ⟨?_, hrest⟩
        intro b hb
        rw [← heq]
        exact ha b hb
      · have hne : a.id ≠ item.id := by simpa using hc
        simp only [putItem, hc, Bool.false_eq_true, if_false]
        refine List.pairwise_cons.2 ⟨?_, ih hrest⟩
        intro b hb
        rcases mem_putItem hb with h | h
        · rw [h]; exact hne
        · exact ha b h

theorem mem_eraseKey {store : List Item} {key : String} {x : Item}
    (h : x ∈ eraseKey store key) : x ∈ store := by
  induction store with
  | nil => simp [eraseKey] at h
  | cons a rest ih =>
      by_cases hc : (a.id == key) = true
      · simp only [eraseKey, hc, if_true] at h
        exact List.mem_cons.2 (Or.inr h)
      · simp only [eraseKey, hc, Bool.false_eq_true, if_false] at h
        rcases List.mem_cons.1 h with h | h
        · exact List.mem_cons.2 (Or.inl h)
        · exact List.mem_cons.2 (Or.inr (ih h))

theorem pairwise_eraseKey {store : List Item} (key : String)
    (hp : store.Pairwise (fun a b => a.id ≠ b.id)) :
    (eraseKey store key).Pairwise (fun a b => a.id ≠ b.id) := by
  induction store with
  | nil => simp [eraseKey]
  | cons a rest ih =>
      rcases List.pairwise_cons.1 hp with ⟨ha, hrest⟩
      by_cases hc : (a.id == key) = true
      · simpa [eraseKey, hc] using hrest
      · simp only [eraseKey, hc, Bool.false_eq_true, if_false]
        refine List.pairwise_cons.2 ⟨?_, ih hrest⟩
        intro b hb
        exact ha b (mem_eraseKey hb)

theorem getAllLoop_flatten (pages : List (List Item)) :
    ∀ fuel n songs, pages.length ≤ n + 1 + fuel →
      getAllLoop pages songs n = songs ++ (pages.drop (n + 1)).flatten := by
  intro fuel
  induction fuel with
  | zero =>
      intro n songs hle
      rw [getAllLoop]
      split
      · rw [List.drop_eq_nil_of_le (by omega)]
        simp
      · rename_i m hsome
        simp only [lastEvaluatedKey] at hsome
        split at hsome
        · omega
        · cases hsome
  | succ fuel ih =>
      intro n songs hle
      rw [getAllLoop]
      split
      · rename_i hnone
        simp only [lastEvaluatedKey] at hnone
        split at hnone
        · cases hnone
        · rw [List.drop_eq_nil_of_le (by omega)]
          simp
      · rename_i m hsome
        simp only [lastEvaluatedKey] at hsome
        split at hsome
        · rename_i hlt
          cases hsome
          rw [ih (n + 1) (songs ++ scanItems pages (n + 1)) (by omega)]
          rw [List.append_assoc]
          congr 1
          have hdrop : pages.drop (n + 1) =
              pages[n + 1] :: pages.drop (n + 2) :=
            List.drop_eq_getElem_cons hlt
          rw [hdrop, List.flatten]
          congr 1
          simp [scanItems, List.getD_eq_getElem?_getD,
            List.getElem?_eq_getElem hlt]
        · cases hsome

theorem update_song_absent {store : List Item} {song_id : String}
    {u : SongUpdate} (h : getItem store song_id = none) :
    update_song store song_id u = ⟨none, store, [StoreOp.getOp song_id]⟩ := by
  simp [update_song, get_song_by_id, h]

theorem update_song_found_empty {store : List Item} {song_id : String}
    {existing : Item} {u : SongUpdate}
    (h : getItem store song_id = some existing)
    (he : (updateExpressionParts u).isEmpty = true) :
    update_song store song_id u = ⟨some existing, store, [StoreOp.getOp song_id]⟩ := by
  simp [update_song, get_song_by_id, h, he]

theorem update_song_found {store : List Item} {song_id : String}
    {existing : Item} {u : SongUpdate}
    (h : getItem store song_id = some existing)
    (hne : (updateExpressionParts u).isEmpty = false) :
    update_song store song_id u =
      ⟨some (applyChanges existing u), putItem store (applyChanges existing u),
        [StoreOp.getOp song_id, StoreOp.updateOp song_id u]⟩ := by
  simp [update_song, get_song_by_id, h, hne]

theorem validName_ne_empty {n : String} (h : validName n = true) : n ≠ "" := by
  intro he
  rw [he] at h
  exact absurd h (by decide)

theorem validPlays_nonneg {p : Int} (h : validPlays p = true) : 0 ≤ p :=
  of_decide_eq_true h

theorem itemOK_applyChanges {it : Item} {u : SongUpdate}
    (hok : itemOK it) (hu : validSongUpdate u = true) :
    itemOK (applyChanges it u) := by
  obtain ⟨hid, hname, hplays⟩ := hok
  simp only [validSongUpdate, Bool.and_eq_true] at hu
  obtain ⟨hn, hp⟩ := hu
  refine ⟨hid, ?_, ?_⟩
  · cases hcn : u.name with
    | none => simpa [applyChanges, hcn] using hname
    | some n =>
        rw [hcn] at hn
        simp only [applyChanges, hcn, Option.getD_some]
        exact validName_ne_empty hn
  · cases hcp : u.plays with
    | none => simpa [applyChanges, hcp] using hplays
    | some p =>
        rw [hcp] at hp
        simp only [applyChanges, hcp, Option.getD_some]
        exact validPlays_nonneg hp

/-! Theorems for the claims. -/

/-- C1: for every valid create input, `create_song` followed by
`get_song_by_id` on the id of the created item returns exactly the created
song, and the created song carries the generated id together with the
name, path and plays of the input. -/
theorem c1_create_then_get (gen_id : String) (store : List Item)
    (s : SongCreate) (hname : validName s.name = true)
    (hplays : validPlays s.plays = true) :
    (get_song_by_id (create_song gen_id store s).store
        (create_song gen_id store s).value.id).value
      = some (create_song gen_id store s).value ∧
    (create_song gen_id store s).value =
      { id := gen_id, name := s.name, path := s.path, plays := s.plays } := by
  constructor
  · simp only [create_song, get_song_by_id]
    exact getItem_putItem_self store _
  · rfl

theorem c1_create_then_get_witness :
    (get_song_by_id
        (create_song "id-1" [] ⟨"Imagine", "https://x/imagine.mp3", 0⟩).store
        (create_song "id-1" [] ⟨"Imagine", "https://x/imagine.mp3", 0⟩).value.id).value
      = some (create_song "id-1" [] ⟨"Imagine", "https://x/imagine.mp3", 0⟩).value ∧
    (create_song "id-1" [] ⟨"Imagine", "https://x/imagine.mp3", 0⟩).value =
      { id := "id-1", name := "Imagine", path := "https://x/imagine.mp3"
        plays := 0 } :=
  c1_create_then_get "id-1" [] ⟨"Imagine", "https://x/imagine.mp3", 0⟩
    (by decide) (by decide)

/-- C2: updating an existing song with a change set that supplies only
`plays` succeeds, and both the returned and the stored song carry the new
`plays` with the prior `name` and `path`. -/
theorem c2_update_only_plays (store : List Item) (song_id : String)
    (existing : Item) (p : Int)
    (h : getItem store song_id = some existing) :
    (update_song store song_id ⟨none, none, some p⟩).value
      = some { existing with plays := p } ∧
    getItem (update_song store song_id ⟨none, none, some p⟩).store song_id
      = some { existing with plays := p } := by
  have hid : existing.id = song_id := (getItem_id_eq h).1
  have hne : (updateExpressionParts (⟨none, none, some p⟩ : SongUpdate)).isEmpty
      = false := rfl
  have happ : applyChanges existing ⟨none, none, some p⟩
      = { existing with plays := p } := by
    simp [applyChanges]
  rw [update_song_found h hne, happ]
  refine ⟨rfl, ?_⟩
  have hid2 : ({ existing with plays := p } : Item).id = song_id := hid
  rw [← hid2]
  exact getItem_putItem_self store _

theorem c2_update_only_plays_witness :
    (update_song [⟨"a", "Imagine", "pp", 0⟩] "a" ⟨none, none, some 5⟩).value
      = some ⟨"a", "Imagine", "pp", 5⟩ ∧
    getItem (update_song [⟨"a", "Imagine", "pp", 0⟩] "a"
        ⟨none, none, some 5⟩).store "a"
      = some ⟨"a", "Imagine", "pp", 5⟩ :=
  c2_update_only_plays [⟨"a", "Imagine", "pp", 0⟩] "a"
    ⟨"a", "Imagine", "pp", 0⟩ 5 (by decide)

/-- C3: updating an existing song with the empty change set returns the
pre-update `get_song_by_id` result, leaves the store unchanged, and issues
no write operation to the store. -/
theorem c3_update_empty_noop (store : List Item) (song_id : String)
    (existing : Item) (h : getItem store song_id = some existing) :
    (update_song store song_id ⟨none, none, none⟩).value
      = (get_song_by_id store song_id).value ∧
    (update_song store song_id ⟨none, none, none⟩).store = store ∧
    ∀ op ∈ (update_song store song_id ⟨none, none, none⟩).trace,
      op.isWrite = false := by
  have he : (updateExpressionParts (⟨none, none, none⟩ : SongUpdate)).isEmpty
      = true := by decide
  rw [update_song_found_empty h he]
  refine ⟨?_, rfl, ?_⟩
  · simp [get_song_by_id, h]
  · intro op hop
    simp only [List.mem_singleton] at hop
    rw [hop]
    rfl

theorem c3_update_empty_noop_witness :
    (update_song [⟨"a", "Imagine", "pp", 3⟩] "a" ⟨none, none, none⟩).value
      = (get_song_by_id [⟨"a", "Imagine", "pp", 3⟩] "a").value ∧
    (update_song [⟨"a", "Imagine", "pp", 3⟩] "a" ⟨none, none, none⟩).store
      = [⟨"a", "Imagine", "pp", 3⟩] ∧
    ∀ op ∈ (update_song [⟨"a", "Imagine", "pp", 3⟩] "a"
        ⟨none, none, none⟩).trace, op.isWrite = false :=
  c3_update_empty_noop [⟨"a", "Imagine", "pp", 3⟩] "a"
    ⟨"a", "Imagine", "pp", 3⟩ (by decide)

/-- C4: updating an id absent from the store performs only the existence
lookup (the trace is exactly one get, so no partial-update is ever issued),
returns the not-found outcome, and the handler maps it to HTTP 404. -/
theorem c4_update_absent_404 (store : List Item) (song_id : String)
    (u : SongUpdate) (h : getItem store song_id = none) :
    (update_song store song_id u).value = none ∧
    (update_song store song_id u).trace = [StoreOp.getOp song_id] ∧
    (updateSongHandler store song_id u).status = 404 := by
  refine ⟨?_, ?_, ?_⟩ <;>
    simp [updateSongHandler, update_song_absent h]

theorem c4_update_absent_404_witness :
    (update_song [] "missing" ⟨some "X", none, none⟩).value = none ∧
    (update_song [] "missing" ⟨some "X", none, none⟩).trace
      = [StoreOp.getOp "missing"] ∧
    (updateSongHandler [] "missing" ⟨some "X", none, none⟩).status = 404 :=
  c4_update_absent_404 [] "missing" ⟨some "X", none, none⟩ (by decide)

/-- C5: for every song in a well-keyed store, `delete_song` on its id
returns the song as stored immediately before deletion, and a subsequent
`get_song_by_id` on the same id yields not-found. -/
theorem c5_delete_then_get (store : List Item) (it : Item)
    (hp : store.Pairwise (fun a b => a.id ≠ b.id)) (hm : it ∈ store) :
    (delete_song store it.id).value = some it ∧
    (get_song_by_id (delete_song store it.id).store it.id).value = none := by
  constructor
  · simp only [delete_song]
    exact getItem_of_mem hp hm
  · simp only [delete_song, get_song_by_id]
    exact getItem_eraseKey_self hp

theorem c5_delete_then_get_witness :
    (delete_song [⟨"a", "Imagine", "pp", 7⟩] "a").value
      = some ⟨"a", "Imagine", "pp", 7⟩ ∧
    (get_song_by_id (delete_song [⟨"a", "Imagine", "pp", 7⟩] "a").store
        "a").value = none :=
  c5_delete_then_get [⟨"a", "Imagine", "pp", 7⟩] ⟨"a", "Imagine", "pp", 7⟩
    (by simp) (by simp)

/-- C6: a create request with an empty name or a negative plays value is
rejected with 422 by the validation layer: no store operation is issued and
the store is unchanged. -/
theorem c6_create_invalid_rejected (gen_id : String) (store : List Item)
    (raw : RawCreateRequest)
    (h : raw.name = "" ∨ ∃ p, raw.plays = some p ∧ p < 0) :
    (createSongHandler gen_id store raw).status = 422 ∧
    (createSongHandler gen_id store raw).trace = [] ∧
    (createSongHandler gen_id store raw).store = store := by
  have hparse : parseSongCreate raw = none := by
    rcases h with h | ⟨p, hp, hneg⟩
    · have hv : validName raw.name = false := by
        rw [h]; decide
      simp [parseSongCreate, hv]
    · have hv : validPlays (raw.plays.getD 0) = false := by
        rw [hp]
        simp only [Option.getD_some, validPlays, decide_eq_false_iff_not]
        omega
      simp [parseSongCreate, hv]
  simp [createSongHandler, hparse]

theorem c6_create_invalid_rejected_witness :
    (createSongHandler "g" [] ⟨"", "pp", some 3, none⟩).status = 422 ∧
    (createSongHandler "g" [] ⟨"", "pp", some 3, none⟩).trace = [] ∧
    (createSongHandler "g" [] ⟨"", "pp", some 3, none⟩).store = [] :=
  c6_create_invalid_rejected "g" [] ⟨"", "pp", some 3, none⟩ (Or.inl rfl)

/-- C7: the scan loop of `get_all_songs` follows the pagination cursor until
it is exhausted and returns exactly the concatenation of the items of every
page, in page order (an empty result is returned without error). -/
theorem c7_get_all_songs_concat (pages : List (List Item)) :
    get_all_songs pages = pages.flatten := by
  rw [get_all_songs,
    getAllLoop_flatten pages pages.length 0 (scanItems pages 0) (by omega)]
  cases pages with
  | nil => simp [scanItems]
  | cons p rest => simp [scanItems]

/-- C8: the store invariant — non-empty unique ids, non-empty names,
non-negative plays — is preserved by create (with a valid input and a
non-empty generated id), by update (with a validated partial input, for any
target id), and by delete (for any target id). -/
theorem c8_invariants_preserved (store : List Item) (gen_id : String)
    (s : SongCreate) (song_id : String) (u : SongUpdate)
    (hwf : storeWF store) (hgen : gen_id ≠ "")
    (hsname : validName s.name = true) (hsplays : validPlays s.plays = true)
    (hu : validSongUpdate u = true) :
    storeWF (create_song gen_id store s).store ∧
    storeWF (update_song store song_id u).store ∧
    storeWF (delete_song store song_id).store := by
  obtain ⟨hok, hpair⟩ := hwf
  refine ⟨⟨?_, ?_⟩, ?_, ⟨?_, ?_⟩⟩
  · intro x hx
    rcases mem_putItem hx with hx | hx
    · rw [hx]
      exact ⟨hgen, validName_ne_empty hsname, validPlays_nonneg hsplays⟩
    · exact hok x hx
  · exact pairwise_putItem _ hpair
  · cases hc : getItem store song_id with
    | none =>
        rw [update_song_absent hc]
        exact ⟨hok, hpair⟩
    | some existing =>
        cases he : (updateExpressionParts u).isEmpty with
        | true =>
            rw [update_song_found_empty hc he]
            exact ⟨hok, hpair⟩
        | false =>
            rw [update_song_found hc he]
            have hex : itemOK existing := hok existing (getItem_id_eq hc).2
            have hupd : itemOK (applyChanges existing u) :=
              itemOK_applyChanges hex hu
            refine ⟨?_, pairwise_putItem _ hpair⟩
            intro x hx
            rcases mem_putItem hx with hx | hx
            · rw [hx]; exact hupd
            · exact hok x hx
  · intro x hx
    exact hok x (mem_eraseKey hx)
  · exact pairwise_eraseKey _ hpair

theorem c8_invariants_preserved_witness :
    storeWF (create_song "g" [] ⟨"Imagine", "pp", 0⟩).store ∧
    storeWF (update_song [] "x" ⟨none, none, none⟩).store ∧
    storeWF (delete_song [] "x").store :=
  c8_invariants_preserved [] "g" ⟨"Imagine", "pp", 0⟩ "x" ⟨none, none, none⟩
    ⟨by simp, List.Pairwise.nil⟩ (by decide) (by decide) (by decide) (by decide)

/-- C9: a create request that omits `plays` (with a valid name) is accepted
with 201 and the created, returned item has plays 0, the server-generated id,
and the supplied name and path. -/
theorem c9_create_defaults_plays (gen_id : String) (store : List Item)
    (name path : String) (eid : Option String)
    (hname : validName name = true) :
    (createSongHandler gen_id store ⟨name, path, none, eid⟩).status = 201 ∧
    (createSongHandler gen_id store ⟨name, path, none, eid⟩).body
      = some { id := gen_id, name := name, path := path, plays := 0 } := by
  have hparse : parseSongCreate ⟨name, path, none, eid⟩
      = some { name := name, path := path, plays := 0 } := by
    simp [parseSongCreate, hname, validPlays]
  simp [createSongHandler, hparse, create_song]

theorem c9_create_defaults_plays_witness :
    (createSongHandler "id-9" [] ⟨"Imagine", "pp", none, none⟩).status = 201 ∧
    (createSongHandler "id-9" [] ⟨"Imagine", "pp", none, none⟩).body
      = some { id := "id-9", name := "Imagine", path := "pp", plays := 0 } :=
  c9_create_defaults_plays "id-9" [] "Imagine" "pp" none (by decide)

/-- C10: an `id` field supplied in a create request body is ignored — two
bodies that differ only in that extra field yield identical handler results
(same generated id from the server-side generator), and any returned item
carries exactly the server-generated id. -/
theorem c10_create_ignores_body_id (gen_id : String) (store : List Item)
    (name path : String) (plays : Option Int) (id1 id2 : Option String) :
    createSongHandler gen_id store ⟨name, path, plays, id1⟩
      = createSongHandler gen_id store ⟨name, path, plays, id2⟩ ∧
    ((createSongHandler gen_id store ⟨name, path, plays, id1⟩).body.all
      (fun it => it.id == gen_id)) = true := by
  constructor
  · rfl
  · cases hparse : parseSongCreate ⟨name, path, plays, id1⟩ with
    | none => simp [createSongHandler, hparse]
    | some s => simp [createSongHandler, hparse, create_song]

end SongsApi
